import Mathlib

/-!
Shallow embedding of the provider abstraction and request/response
translation layer of geminicli-anyllm, together with theorems settling the
behavioural claims about it.

Embedded source files:
* `packages/core/src/utils/generateContentResponseUtilities.ts`
  (response extraction utilities),
* the LLM provider module (`OpenAICompatibleProvider`, `createLLMProvider`)
  and the content-generator factory (`createContentGenerator`).

Modelling conventions:
* JavaScript objects with possibly-absent keys become structures with
  `Option` fields; a key is "present in the outbound body" iff the field is
  `some`.
* JavaScript string truthiness (`if (s)`) is modelled by `jsTruthy` /
  `truthyText`: defined and non-empty.
* Effectful methods that perform no network call are modelled as pure
  functions paired with an (empty) list of issued network requests.
* `JSON.stringify` is modelled for the flat object shapes that actually
  flow through these code paths (parts with `text` / `functionCall`
  fields, function calls with a name and a flat string-valued args map).
-/

namespace GeminiAnyLLM

set_option maxRecDepth 100000

/-! ## String helpers modelling JavaScript primitives -/

/-- Model of JavaScript `String.prototype.includes`: `pat` occurs as a
contiguous substring of `s`. -/
def listContainsSub (pat : List Char) : List Char → Bool
  | [] => pat.isEmpty
  | c :: rest => pat.isPrefixOf (c :: rest) || listContainsSub pat rest

def strIncludes (s pat : String) : Bool :=
  listContainsSub pat.toList s.toList

def strNonEmpty (s : String) : Bool :=
  !s.toList.isEmpty

/-- JavaScript truthiness of a possibly-undefined string value. -/
def jsTruthy : Option String → Bool
  | some s => strNonEmpty s
  | none => false

/-- Model of `s.substring(0, 200) + (s.length > 200 ? '...' : '')`, the
diagnostic-excerpt truncation used throughout `makeApiRequest`. -/
def excerpt200 (s : String) : String :=
  String.mk (s.toList.take 200) ++
    (if s.toList.length > 200 then "..." else "")

def isJsWhitespace (c : Char) : Bool :=
  c = ' ' || c = '\t' || c = '\n' || c = '\r'

/-- Model of `errorText.trim().startsWith('{') || errorText.trim().startsWith('[')`:
after discarding leading whitespace, the first character is an opening
brace or bracket.  (Trailing trimming cannot affect `startsWith`, except on
all-whitespace strings, where both sides yield `false`.) -/
def looksLikeJson (s : String) : Bool :=
  match s.toList.dropWhile isJsWhitespace with
  | [] => false
  | c :: _ => c = '\x7b' || c = '['

/-! ## JSON serialization for the flat shapes used by the adapter -/

def jsonEscapeChar (c : Char) : String :=
  if c = '"' then "\\\""
  else if c = '\\' then "\\\\"
  else if c = '\n' then "\\n"
  else if c = '\t' then "\\t"
  else if c = '\r' then "\\r"
  else String.singleton c

def jsonEscape (s : String) : String :=
  String.join (s.toList.map jsonEscapeChar)

def jsonQuote (s : String) : String :=
  "\"" ++ jsonEscape s ++ "\""

/-- A function-call payload (`part.functionCall`): a name and a flat
string-valued argument map, the shape this code path actually carries. -/
structure FunctionCall where
  name : String
  args : List (String × String)
deriving DecidableEq

def stringifyArgsCompact (args : List (String × String)) : String :=
  "\x7b" ++
    String.intercalate ","
      (args.map (fun kv => jsonQuote kv.1 ++ ":" ++ jsonQuote kv.2)) ++
    "\x7d"

/-- `JSON.stringify` of a function call, compact form. -/
def FunctionCall.stringifyCompact (fc : FunctionCall) : String :=
  "\x7b\"name\":" ++ jsonQuote fc.name ++ ",\"args\":" ++
    stringifyArgsCompact fc.args ++ "\x7d"

/-- One `part` of a content turn: an optional `text` field and an optional
`functionCall` field; absent fields model absent JS object keys. -/
structure Part where
  text : Option String := none
  functionCall : Option FunctionCall := none
deriving DecidableEq

/-- `JSON.stringify(part)`: present fields serialized in declaration
order (`text`, then `functionCall`); absent fields omitted. -/
def Part.stringifyCompact (p : Part) : String :=
  let fields :=
    (match p.text with
      | some t => [("\"text\":" ++ jsonQuote t)]
      | none => []) ++
    (match p.functionCall with
      | some fc => [("\"functionCall\":" ++ fc.stringifyCompact)]
      | none => [])
  "\x7b" ++ String.intercalate "," fields ++ "\x7d"

/-! ## Response extraction utilities
(`generateContentResponseUtilities.ts`) -/

def isAsciiLower (c : Char) : Bool :=
  'a' ≤ c && c ≤ 'z'

/-- Model of `text.replace(/^```[a-z]*\n/, '')`: remove a leading fence
marker (three backticks, a run of lowercase letters, a newline) when the
string starts with one; otherwise leave the string unchanged.
(`'\x60'` is the backtick character.) -/
def stripLeadingFence (s : String) : String :=
  match s.toList with
  | '\x60' :: '\x60' :: '\x60' :: rest =>
    let lang := rest.takeWhile isAsciiLower
    match rest.drop lang.length with
    | '\n' :: tail => String.mk tail
    | _ => s
  | _ => s

/-- Model of `text.replace(/\n```$/, '')`: remove a trailing
newline-plus-three-backticks when present; otherwise leave unchanged. -/
def stripTrailingFence (s : String) : String :=
  match s.toList.reverse with
  | '\x60' :: '\x60' :: '\x60' :: '\n' :: rest => String.mk rest.reverse
  | _ => s

/-- `stripMarkdownCodeBlocks`: the two regex replacements applied in
source order — leading fence first, then trailing fence, each
independently of the other. -/
def stripMarkdownCodeBlocks (text : String) : String :=
  stripTrailingFence (stripLeadingFence text)

/-- The `textSegments` computation: `parts.map(p => p.text)` filtered to
the entries that are strings (which keeps empty strings). -/
def textSegments (parts : List Part) : List String :=
  (parts.map (fun p => p.text)).filterMap id

def getResponseTextFromParts (parts : List Part) : Option String :=
  let segs := textSegments parts
  if segs.isEmpty then none
  else some (stripMarkdownCodeBlocks (String.join segs))

/-- A content turn as it appears inside a response candidate. -/
structure ResponseContent where
  role : Option String := none
  parts : Option (List Part) := none
deriving DecidableEq

structure Candidate where
  content : Option ResponseContent := none
deriving DecidableEq

structure GenerateContentResponse where
  candidates : Option (List Candidate) := none
deriving DecidableEq

/-- The `response.candidates?.[0]?.content?.parts` optional chain. -/
def firstParts (r : GenerateContentResponse) : Option (List Part) :=
  match r.candidates with
  | none => none
  | some [] => none
  | some (c :: _) =>
    match c.content with
    | none => none
    | some ct => ct.parts

/-- `getResponseText` (the source duplicates the body of
`getResponseTextFromParts` after the optional chain). -/
def getResponseText (r : GenerateContentResponse) : Option String :=
  match firstParts r with
  | none => none
  | some parts => getResponseTextFromParts parts

/-- Truthiness of `part.functionCall` (`!!part.functionCall`). -/
def hasFunctionCall (p : Part) : Bool :=
  p.functionCall.isSome

def getFunctionCallsFromParts (parts : List Part) : Option (List FunctionCall) :=
  let fcs := (parts.filter hasFunctionCall).filterMap (fun p => p.functionCall)
  if fcs.isEmpty then none else some fcs

def getFunctionCalls (r : GenerateContentResponse) : Option (List FunctionCall) :=
  match firstParts r with
  | none => none
  | some parts => getFunctionCallsFromParts parts

/-- `JSON.stringify(value, null, 2)` of a single function call, nested at
indentation `ind` (the indentation of the object's own lines). -/
def FunctionCall.stringifyIndent (ind : String) (fc : FunctionCall) : String :=
  let argsStr :=
    match fc.args with
    | [] => "\x7b\x7d"
    | args =>
      "\x7b\n" ++
        String.intercalate ",\n"
          (args.map (fun kv =>
            ind ++ "    " ++ jsonQuote kv.1 ++ ": " ++ jsonQuote kv.2)) ++
        "\n" ++ ind ++ "  \x7d"
  ind ++ "\x7b\n" ++
    ind ++ "  " ++ "\"name\": " ++ jsonQuote fc.name ++ ",\n" ++
    ind ++ "  " ++ "\"args\": " ++ argsStr ++ "\n" ++
    ind ++ "\x7d"

/-- `JSON.stringify(functionCalls, null, 2)`: pretty-printed array with a
two-space indent step. -/
def stringifyFunctionCallsPretty (fcs : List FunctionCall) : String :=
  match fcs with
  | [] => "[]"
  | _ =>
    "[\n" ++
      String.intercalate ",\n" (fcs.map (FunctionCall.stringifyIndent "  ")) ++
      "\n]"

def getFunctionCallsAsJson (r : GenerateContentResponse) : Option String :=
  match getFunctionCalls r with
  | none => none
  | some fcs => some (stringifyFunctionCallsPretty fcs)

def getFunctionCallsFromPartsAsJson (parts : List Part) : Option String :=
  match getFunctionCallsFromParts parts with
  | none => none
  | some fcs => some (stringifyFunctionCallsPretty fcs)

/-- `getStructuredResponse`, with JavaScript string truthiness made
explicit: an empty-string `textContent` (or `functionCallsJson`) is falsy. -/
def getStructuredResponse (r : GenerateContentResponse) : Option String :=
  let textContent := getResponseText r
  let functionCallsJson := getFunctionCallsAsJson r
  if jsTruthy textContent && jsTruthy functionCallsJson then
    some (textContent.getD "" ++ "\n" ++ functionCallsJson.getD "")
  else if jsTruthy textContent then textContent
  else if jsTruthy functionCallsJson then functionCallsJson
  else none

def getStructuredResponseFromParts (parts : List Part) : Option String :=
  let textContent := getResponseTextFromParts parts
  let functionCallsJson := getFunctionCallsFromPartsAsJson parts
  if jsTruthy textContent && jsTruthy functionCallsJson then
    some (textContent.getD "" ++ "\n" ++ functionCallsJson.getD "")
  else if jsTruthy textContent then textContent
  else if jsTruthy functionCallsJson then functionCallsJson
  else none

/-! ## Provider configuration and request translation
(`OpenAICompatibleProvider`) -/

/-- `LLMProviderConfig`. -/
structure LLMProviderConfig where
  apiUrl : String
  apiKey : Option String := none
  model : String
  headers : Option (List (String × String)) := none
  proxy : Option String := none

/-- One element of the `contents` argument: either a bare string or a
Gemini-style content object with possibly-absent `role` and `parts`. -/
inductive ContentInput where
  | str (s : String)
  | turn (role : Option String) (parts : Option (List Part))
deriving DecidableEq

/-- `JSON.stringify(content)` for the defensive fallback paths. -/
def ContentInput.stringifyCompact : ContentInput → String
  | .str s => jsonQuote s
  | .turn role parts =>
    let fields :=
      (match role with
        | some r => [("\"role\":" ++ jsonQuote r)]
        | none => []) ++
      (match parts with
        | some ps =>
          [("\"parts\":[" ++
              String.intercalate "," (ps.map Part.stringifyCompact) ++ "]")]
        | none => [])
    "\x7b" ++ String.intercalate "," fields ++ "\x7d"

/-- The `contents` argument: `Array.isArray(contents) ? contents : [contents]`. -/
inductive ContentsArg where
  | single (c : ContentInput)
  | array (cs : List ContentInput)
deriving DecidableEq

def toContentArray : ContentsArg → List ContentInput
  | .single c => [c]
  | .array cs => cs

/-- Truthiness of `part.text` (`part.text ? ... : ...` and the
`filter((part) => part.text)`): defined and non-empty. -/
def truthyText (p : Part) : Bool :=
  match p.text with
  | some t => strNonEmpty t
  | none => false

structure ChatMessage where
  role : String
  content : String
deriving DecidableEq

/-- The per-turn body of `convertContentsToMessages`. -/
def mapTurnToMessage : ContentInput → ChatMessage
  | .str s => { role := "user", content := s }
  | .turn role parts =>
    if jsTruthy role && parts.isSome then
      let textParts := (parts.getD []).filter truthyText
      { role := if role.getD "" = "model" then "assistant" else role.getD "",
        content :=
          String.intercalate "\n" (textParts.map (fun p => p.text.getD "")) }
    else
      { role := "user",
        content := ContentInput.stringifyCompact (.turn role parts) }

def convertContentsToMessages (contents : ContentsArg) : List ChatMessage :=
  (toContentArray contents).map mapTurnToMessage

/-- The per-turn body of `convertContentsToPrompt`: note that, unlike the
chat-style translation, a part without truthy text is serialized to JSON
rather than dropped, and the `role` field is not consulted. -/
def mapTurnToPrompt : ContentInput → String
  | .str s => s
  | .turn role parts =>
    match parts with
    | some ps =>
      String.intercalate "\n"
        (ps.map (fun p =>
          if truthyText p then p.text.getD "" else p.stringifyCompact))
    | none => ContentInput.stringifyCompact (.turn role none)

def convertContentsToPrompt (contents : ContentsArg) : String :=
  String.intercalate "\n\n" ((toContentArray contents).map mapTurnToPrompt)

/-- The optional generation configuration carried by a request. -/
structure GenerationConfig where
  temperature : Option Float := none
  maxOutputTokens : Option Nat := none
  topP : Option Float := none
  stopSequences : Option (List String) := none

/-- The sampling parameters spread into the outbound body
(`convertConfigToOpenAIParams`): each present only if supplied. -/
structure OpenAIParams where
  temperature : Option Float := none
  max_tokens : Option Nat := none
  top_p : Option Float := none
  stop : Option (List String) := none

def convertConfigToOpenAIParams (config : Option GenerationConfig) : OpenAIParams :=
  let cfg := config.getD {}
  { temperature := cfg.temperature
    max_tokens := cfg.maxOutputTokens
    top_p := cfg.topP
    stop := cfg.stopSequences }

structure GenerateContentParameters where
  contents : ContentsArg
  config : Option GenerationConfig := none

/-- The outbound request body: a `some` field models a present JSON key. -/
structure RequestBody where
  model : String
  messages : Option (List ChatMessage) := none
  prompt : Option String := none
  params : OpenAIParams

def prepareGenerateContentRequest (cfg : LLMProviderConfig)
    (request : GenerateContentParameters) (isChatCompletion : Bool) :
    RequestBody :=
  if isChatCompletion then
    { model := cfg.model
      messages := some (convertContentsToMessages request.contents)
      params := convertConfigToOpenAIParams request.config }
  else
    { model := cfg.model
      prompt := some (convertContentsToPrompt request.contents)
      params := convertConfigToOpenAIParams request.config }

/-- The body built by `generateContent`: the chat-vs-completion flag is
recomputed from the configured endpoint URL on every call. -/
def generateContentBody (cfg : LLMProviderConfig)
    (request : GenerateContentParameters) : RequestBody :=
  prepareGenerateContentRequest cfg request
    (strIncludes cfg.apiUrl "chat/completions")

/-! ## Outbound header composition (`makeApiRequest`, lines 245-262) -/

/-- JavaScript object-key assignment/spread semantics: an existing key is
updated in place, a new key is appended. -/
def upsertHeader (m : List (String × String)) (k v : String) :
    List (String × String) :=
  match m with
  | [] => [(k, v)]
  | (k0, v0) :: rest =>
    if k0 = k then (k, v) :: rest else (k0, v0) :: upsertHeader rest k v

/-- Spreading `hs` over `base` (`{...base, ...hs}`). -/
def applyHeaders (base : List (String × String))
    (hs : List (String × String)) : List (String × String) :=
  hs.foldl (fun m kv => upsertHeader m kv.1 kv.2) base

/-- The key-derived auth header: OpenAI and OpenRouter endpoints get a
bearer `Authorization` header, everything else gets `X-API-Key`. -/
def authHeaderFor (url key : String) : String × String :=
  if strIncludes url "openai.com" || strIncludes url "api.openai.com" then
    ("Authorization", "Bearer " ++ key)
  else if strIncludes url "openrouter.ai" then
    ("Authorization", "Bearer " ++ key)
  else
    ("X-API-Key", key)

/-- The composed outbound headers: `{'Content-Type': 'application/json',
...config.headers}`, then the key-derived header assigned afterwards when
the key is truthy. -/
def buildRequestHeaders (cfg : LLMProviderConfig) (url : String) :
    List (String × String) :=
  let base :=
    applyHeaders [("Content-Type", "application/json")] (cfg.headers.getD [])
  if jsTruthy cfg.apiKey then
    let kv := authHeaderFor url (cfg.apiKey.getD "")
    upsertHeader base kv.1 kv.2
  else
    base

def headerLookup (k : String) : List (String × String) → Option String
  | [] => none
  | (k0, v) :: rest => if k0 = k then some v else headerLookup k rest

/-- The last binding of `k` in a header list (later duplicate keys win
under object spread). -/
def lastBinding (k : String) (hs : List (String × String)) : Option String :=
  hs.foldl (fun acc kv => if kv.1 = k then some kv.2 else acc) none

/-! ## Non-2xx response handling (`makeApiRequest`, lines 282-306) -/

/-- The message of the error raised for a non-success HTTP status.
`bodyRead` is the outcome of `response.text()`: `.error m` models a
rejection with message `m`, which the source catches and folds into
`errorText` (it does not raise a network error there).

In the source, when the trimmed body starts with a brace or bracket, the
`Error` carrying the serialized parsed JSON is thrown *inside* the `try`
block and caught by that block's own `catch`, so the raw-text message is
the one that always escapes, whether or not `JSON.parse` succeeds. -/
def handleErrorResponse (status : Nat) (bodyRead : Except String String) :
    String :=
  let errorText :=
    match bodyRead with
    | .ok t => t
    | .error m => "Failed to read error response: " ++ m
  if looksLikeJson errorText then
    "API request failed with status " ++ toString status ++ ": " ++ errorText
  else
    "API request failed with status " ++ toString status ++
      ". Server returned: " ++ excerpt200 errorText

/-! ## countTokens / embedContent (no network I/O) -/

structure CountTokensParameters where
  contents : ContentsArg

structure CountTokensResponse where
  totalTokens : Nat
deriving DecidableEq

structure EmbedContentParameters where
  contents : ContentsArg

structure EmbedContentResponse where
  embeddings : List (List Float) := []

/-- A network request the adapter could issue; methods are modelled with
an explicit trace of issued requests, so "performs no network I/O" is the
trace being empty. -/
structure NetRequest where
  url : String
  headers : List (String × String)
  body : RequestBody

def getProviderName : String := "OpenAICompatible"

/-- `countTokens`: fixed placeholder result, no network request issued. -/
def countTokens (_request : CountTokensParameters) :
    Except String CountTokensResponse × List NetRequest :=
  (.ok { totalTokens := 0 }, [])

/-- `embedContent`: always throws, no network request issued. -/
def embedContent (_request : EmbedContentParameters) :
    Except String EmbedContentResponse × List NetRequest :=
  (.error "Embedding not supported for this provider", [])

/-! ## Provider selection factory (`createContentGenerator`) -/

inductive AuthType where
  | loginWithGoogle
  | useGemini
  | useVertexAI
  | cloudShell
deriving DecidableEq

def AuthType.toStr : AuthType → String
  | .loginWithGoogle => "oauth-personal"
  | .useGemini => "gemini-api-key"
  | .useVertexAI => "vertex-ai"
  | .cloudShell => "cloud-shell"

/-- `${config.authType}` interpolation: `undefined` prints as the string
`"undefined"`. -/
def showAuthType : Option AuthType → String
  | some t => t.toStr
  | none => "undefined"

/-- The process environment consulted by the factory. -/
structure ProcessEnv where
  llmApiUrl : Option String := none
  llmApiKey : Option String := none
  llmModel : Option String := none
  cliVersion : Option String := none
  processVersion : String := ""
  platform : String := ""
  arch : String := ""

structure ContentGeneratorConfig where
  model : String
  apiKey : Option String := none
  vertexai : Option Bool := none
  authType : Option AuthType := none
  proxy : Option String := none

/-- The generator the factory resolves to.  `codeAssist` models the call
into the external `createCodeAssistContentGenerator` collaborator;
`googleGenAI` models wrapping a freshly constructed native client. -/
inductive ContentGenerator where
  | openAICompatible (cfg : LLMProviderConfig)
  | codeAssist (authType : AuthType)
  | googleGenAI (apiKey : Option String) (vertexai : Option Bool)

def mkUserAgent (env : ProcessEnv) : String :=
  let version :=
    if jsTruthy env.cliVersion then env.cliVersion.getD ""
    else env.processVersion
  "GeminiCLI/" ++ version ++ " (" ++ env.platform ++ "; " ++ env.arch ++ ")"

def createContentGenerator (env : ProcessEnv)
    (config : ContentGeneratorConfig) : Except String ContentGenerator :=
  let httpHeaders := [("User-Agent", mkUserAgent env)]
  if jsTruthy env.llmApiUrl && jsTruthy env.llmApiKey && jsTruthy env.llmModel then
    .ok (.openAICompatible
      { apiUrl := env.llmApiUrl.getD ""
        apiKey := env.llmApiKey
        model := env.llmModel.getD ""
        headers := some httpHeaders
        proxy := config.proxy })
  else if config.authType = some .loginWithGoogle ||
      config.authType = some .cloudShell then
    .ok (.codeAssist (config.authType.getD .loginWithGoogle))
  else if config.authType = some .useGemini ||
      config.authType = some .useVertexAI then
    .ok (.googleGenAI
      (if config.apiKey = some "" then none else config.apiKey)
      config.vertexai)
  else
    .error ("Error creating contentGenerator: Unsupported authType: " ++
      showAuthType config.authType)

def isOpenAIGenerator : Except String ContentGenerator → Bool
  | .ok (.openAICompatible _) => true
  | _ => false

def isVendorGenerator : Except String ContentGenerator → Bool
  | .ok (.codeAssist _) => true
  | .ok (.googleGenAI _ _) => true
  | _ => false

def errOf : Except String ContentGenerator → Option String
  | .error e => some e
  | .ok _ => none

/-- A response whose sole text part starts with an opening fence marker
but has no closing marker. -/
def c4CexResponse : GenerateContentResponse :=
  { candidates := some [{ content := some { role := some "model", parts := some [{ text := some "```\nabc" }] } }] }

/-! ## Definitions transcribing claim/spec wording (for refinement
comparison against the code model) -/

/-- Whether a string starts with an opening fence marker
(```` ``` ````, a run of lowercase letters, a newline). -/
def hasOpenFence (s : String) : Bool :=
  match s.toList with
  | '\x60' :: '\x60' :: '\x60' :: rest =>
    (match rest.drop (rest.takeWhile isAsciiLower).length with
      | '\n' :: _ => true
      | _ => false)
  | _ => false

/-- Whether a string ends with the closing fence marker `"\n```"`. -/
def hasCloseFence (s : String) : Bool :=
  match s.toList.reverse with
  | '\x60' :: '\x60' :: '\x60' :: '\n' :: _ => true
  | _ => false

/-- Follows the claim wording for C4: the fence markers are stripped only
when the text both starts with an opening fence marker and ends with the
closing marker; with only one of the two present the text is returned
unchanged. -/
def stripMarkdownCodeBlocksClaim (s : String) : String :=
  if hasOpenFence s && hasCloseFence s then
    stripTrailingFence (stripLeadingFence s)
  else s

/-- `getResponseText` as the C4 claim describes it: identical except for
the both-markers-required stripping rule. -/
def getResponseTextClaim (r : GenerateContentResponse) : Option String :=
  match firstParts r with
  | none => none
  | some parts =>
    let segs := textSegments parts
    if segs.isEmpty then none
    else some (stripMarkdownCodeBlocksClaim (String.join segs))

/-- A turn for which the C3 claim's "same per-turn text extraction" could
hold: a bare string, or a turn with a truthy role whose parts all carry
truthy text. -/
def goodTurn : ContentInput → Bool
  | .str _ => true
  | .turn role parts =>
    jsTruthy role &&
      (match parts with
        | some ps => ps.all truthyText
        | none => false)

/-! ## Concrete inputs used by counterexamples and witnesses -/

/-- A single turn holding a text part and a function-call part. -/
def c3CexContents : ContentsArg :=
  .array [.turn (some "user")
    (some [{ text := some "hi" },
           { functionCall := some { name := "doIt", args := [] } }])]

/-- Turns that are bare strings or all-truthy-text turns. -/
def c3WitnessTurns : List ContentInput :=
  [.str "hello",
   .turn (some "model") (some [{ text := some "a" }, { text := some "b" }])]

/-- A configuration whose caller-supplied static headers override the
default `Content-Type`. -/
def c9CexCfg : LLMProviderConfig :=
  { apiUrl := "http://localhost:8080/v1/chat/completions"
    apiKey := some "k"
    model := "m"
    headers := some [("Content-Type", "text/plain")] }

/-- A configuration with a static `Authorization` header colliding with
the key-derived header on an openai.com endpoint. -/
def c9WitnessCfg : LLMProviderConfig :=
  { apiUrl := "https://api.openai.com/v1/chat/completions"
    apiKey := some "secret"
    model := "m"
    headers := some [("Authorization", "Bearer old"), ("X-Custom", "1")] }

/-- Parts whose only text part is the empty string, next to a function
call. -/
def c10Parts : List Part :=
  [{ text := some "" },
   { functionCall := some { name := "doThing", args := [("x", "1")] } }]

def c10Response : GenerateContentResponse :=
  { candidates := some
      [{ content := some { role := some "model", parts := some c10Parts } }] }

/-! ## Helper lemmas -/

theorem headerLookup_upsert_self (m : List (String × String)) (k v : String) :
    headerLookup k (upsertHeader m k v) = some v := by
  induction m with
  | nil => simp [upsertHeader, headerLookup]
  | cons kv rest ih =>
    obtain ⟨k0, v0⟩ := kv
    by_cases h : k0 = k
    · simp [upsertHeader, headerLookup, h]
    · simp [upsertHeader, headerLookup, h, ih]

theorem headerLookup_upsert_other (m : List (String × String))
    (k v klook : String) (h : klook ≠ k) :
    headerLookup klook (upsertHeader m k v) = headerLookup klook m := by
  induction m with
  | nil => simp [upsertHeader, headerLookup, Ne.symm h]
  | cons kv rest ih =>
    obtain ⟨k0, v0⟩ := kv
    by_cases h0 : k0 = k
    · subst h0
      simp [upsertHeader, headerLookup, Ne.symm h]
    · simp only [upsertHeader, if_neg h0, headerLookup]
      by_cases h1 : k0 = klook
      · simp [h1]
      · simp [h1, ih]

theorem foldl_lastBinding (k : String) (hs : List (String × String))
    (init : Option String) :
    hs.foldl (fun acc kv => if kv.1 = k then some kv.2 else acc) init =
      (match lastBinding k hs with
        | some v => some v
        | none => init) := by
  induction hs generalizing init with
  | nil => rfl
  | cons kv rest ih =>
    have h2 : lastBinding k (kv :: rest) =
        (match lastBinding k rest with
          | some v => some v
          | none => if kv.1 = k then some kv.2 else none) := by
      simp only [lastBinding, List.foldl_cons]
      exact ih _
    rw [List.foldl_cons, ih _, h2]
    cases hlb : lastBinding k rest with
    | some v => rfl
    | none => by_cases hk : kv.1 = k <;> simp [hk]

theorem headerLookup_applyHeaders (base : List (String × String))
    (hs : List (String × String)) (k : String) :
    headerLookup k (applyHeaders base hs) =
      (match lastBinding k hs with
        | some v => some v
        | none => headerLookup k base) := by
  induction hs generalizing base with
  | nil => rfl
  | cons kv rest ih =>
    have h2 : lastBinding k (kv :: rest) =
        (match lastBinding k rest with
          | some v => some v
          | none => if kv.1 = k then some kv.2 else none) := by
      simp only [lastBinding, List.foldl_cons]
      exact foldl_lastBinding k rest _
    simp only [applyHeaders, List.foldl_cons]
    rw [show List.foldl (fun m kv => upsertHeader m kv.1 kv.2)
        (upsertHeader base kv.1 kv.2) rest =
        applyHeaders (upsertHeader base kv.1 kv.2) rest from rfl]
    rw [ih _, h2]
    cases hlb : lastBinding k rest with
    | some v => rfl
    | none =>
      by_cases hk : kv.1 = k
      · subst hk
        simp [headerLookup_upsert_self]
      · simp only [if_neg hk]
        rw [headerLookup_upsert_other _ _ _ _ (fun hh => hk hh.symm)]

theorem authKey_ne_contentType (url key : String) :
    (authHeaderFor url key).1 ≠ "Content-Type" := by
  unfold authHeaderFor
  split
  · simp
  · split
    · simp
    · simp

theorem getFunctionCallsFromParts_ne_nil (ps : List Part)
    (fcs : List FunctionCall) (h : getFunctionCallsFromParts ps = some fcs) :
    fcs ≠ [] := by
  simp only [getFunctionCallsFromParts] at h
  split at h
  · cases h
  · rename_i hne
    cases h
    intro hnil
    rw [hnil] at hne
    exact hne rfl

theorem getFunctionCalls_ne_nil (r : GenerateContentResponse)
    (fcs : List FunctionCall) (h : getFunctionCalls r = some fcs) :
    fcs ≠ [] := by
  unfold getFunctionCalls at h
  cases hp : firstParts r with
  | none => rw [hp] at h; cases h
  | some ps => rw [hp] at h; exact getFunctionCallsFromParts_ne_nil ps fcs h

theorem stringifyPretty_truthy (fcs : List FunctionCall) (h : fcs ≠ []) :
    jsTruthy (some (stringifyFunctionCallsPretty fcs)) = true := by
  cases fcs with
  | nil => cases h rfl
  | cons a l =>
    show jsTruthy (some ("[\n" ++
      String.intercalate ",\n"
        ((a :: l).map (FunctionCall.stringifyIndent "  ")) ++ "\n]")) = true
    cases hm : String.intercalate ",\n"
        ((a :: l).map (FunctionCall.stringifyIndent "  ")) with
    | mk d => rfl

/-! ## Claim theorems -/

/-- C1: on every `generateContent` call the chat-vs-completion decision is
recomputed from the configured endpoint URL; whenever the URL contains the
literal substring `chat/completions` the outbound body carries a
`messages` field and no `prompt` field, and for every other URL it carries
a `prompt` field and no `messages` field.  Because the statement holds for
every configuration value, an adapter whose endpoint URL differs on a
later call produces the other shape on that call. -/
theorem C1_request_shape_follows_endpoint_url (cfg : LLMProviderConfig)
    (request : GenerateContentParameters) :
    (generateContentBody cfg request).messages.isSome
        = strIncludes cfg.apiUrl "chat/completions" ∧
    (generateContentBody cfg request).prompt.isNone
        = strIncludes cfg.apiUrl "chat/completions" ∧
    (generateContentBody cfg request).prompt.isSome
        = !strIncludes cfg.apiUrl "chat/completions" ∧
    (generateContentBody cfg request).messages.isNone
        = !strIncludes cfg.apiUrl "chat/completions" := by
  unfold generateContentBody prepareGenerateContentRequest
  cases strIncludes cfg.apiUrl "chat/completions" <;> simp

/-- C2 (code bug): for a non-success status whose body parses as JSON the
claim requires the raised message to contain the serialized parsed JSON.
In the source the `Error` carrying `JSON.stringify(errorJson)` is thrown
inside the `try` block and caught by that block's own `catch`, so the
message actually raised carries the raw body text.  At status 401 with the
JSON body `{ "error":"bad key" }` the raised message is the raw-text one,
and the serialized parsed JSON `{"error":"bad key"}` does not occur in
it. -/
theorem C2_error_json_branch_raw_text :
    handleErrorResponse 401 (Except.ok "\x7b \"error\":\"bad key\" \x7d") =
      "API request failed with status 401: \x7b \"error\":\"bad key\" \x7d" ∧
    strIncludes
      (handleErrorResponse 401 (Except.ok "\x7b \"error\":\"bad key\" \x7d"))
      "\x7b\"error\":\"bad key\"\x7d" = false := by
  exact ⟨rfl, by decide⟩

/-- C7 amended: `embedContent` fails for every input with the fixed
message "Embedding not supported for this provider" and issues no network
request; the message refers to the provider only generically and does not
contain the provider's name. -/
theorem C7_embed_always_fails_no_network (request : EmbedContentParameters) :
    embedContent request =
      (Except.error "Embedding not supported for this provider",
        ([] : List NetRequest)) := rfl

/-- C7 counterexample: the error message raised by `embedContent` does not
name the provider — the provider's name, `getProviderName`
("OpenAICompatible"), is not a substring of the message. -/
theorem C7_counterexample_message_lacks_provider_name :
    (embedContent { contents := .array [] }).1 =
      Except.error "Embedding not supported for this provider" ∧
    strIncludes "Embedding not supported for this provider" getProviderName
      = false := by
  exact ⟨rfl, by decide⟩

/-- C8: `countTokens` returns `{totalTokens: 0}` for every input, never
fails, and issues no network request. -/
theorem C8_count_tokens_zero_no_network (request : CountTokensParameters) :
    countTokens request =
      (Except.ok { totalTokens := 0 }, ([] : List NetRequest)) := rfl


/-- C4 counterexample: the claim says the fence markers are stripped only
when both are present, the text being returned unchanged when only one is.
On a response whose sole text part is `"```\n" ++ "abc"` (opening marker,
no closing marker) the code strips the leading marker anyway, disagreeing
with the claim-faithful `getResponseTextClaim`. -/
theorem C4_counterexample_single_marker :
    getResponseText c4CexResponse = some "abc" ∧
    getResponseTextClaim c4CexResponse = some "```\nabc" ∧
    getResponseText c4CexResponse ≠ getResponseTextClaim c4CexResponse := by
  refine ⟨rfl, rfl, ?_⟩
  decide

/-- C4 amended: `extractText` returns absent exactly when the first
candidate has zero text parts, and otherwise returns the in-order
concatenation of the text parts with a leading open-fence marker stripped
when present and a trailing `"\n```"` stripped when present, each
independently of the other (shown by the two concrete conjuncts, where
only one marker is present and it is still stripped). -/
theorem C4_extract_text_amended (r : GenerateContentResponse) :
    getResponseText r =
      (if (textSegments ((firstParts r).getD [])).isEmpty then none
       else some (stripTrailingFence (stripLeadingFence
         (String.join (textSegments ((firstParts r).getD [])))))) ∧
    stripMarkdownCodeBlocks "```\nabc" = "abc" ∧
    stripMarkdownCodeBlocks "abc\n```" = "abc" := by
  refine ⟨?_, rfl, rfl⟩
  cases h : firstParts r with
  | none => simp [getResponseText, h, textSegments]
  | some parts =>
    simp [getResponseText, getResponseTextFromParts, h,
      stripMarkdownCodeBlocks]

/-- C5 counterexample: when reading the error body fails (status 500,
underlying message "boom") the call is raised as an API error — the
message has the API-error shape carrying the status code, and no network
error is raised (the message does not even contain "Network error"),
contradicting the claim's required classification. -/
theorem C5_counterexample_body_read_failure :
    handleErrorResponse 500 (Except.error "boom") =
      "API request failed with status 500. Server returned: Failed to read error response: boom" ∧
    strIncludes (handleErrorResponse 500 (Except.error "boom"))
      "Network error" = false := by
  exact ⟨rfl, by decide⟩

/-- C5 amended: for every non-success status, when reading the error body
fails the failure message is folded into the body text as
`"Failed to read error response: <msg>"` and the call fails with an API
error whose message carries the status code and the ≤200-character
excerpt of that text — not with a network error. -/
theorem C5_error_body_read_failure_is_api_error (status : Nat) (msg : String) :
    handleErrorResponse status (Except.error msg) =
      "API request failed with status " ++ toString status ++
        ". Server returned: " ++
        excerpt200 ("Failed to read error response: " ++ msg) := by
  have h : looksLikeJson ("Failed to read error response: " ++ msg) = false := by
    cases msg with
    | mk data => rfl
  unfold handleErrorResponse
  simp [h]


/-- C3 counterexample: for a turn containing a non-text part the
completion-style prompt serializes that part to JSON and includes it,
while the chat-style content drops it, so the prompt is not the chat-style
per-turn text extraction joined by blank lines. -/
theorem C3_counterexample_nontext_part :
    convertContentsToPrompt c3CexContents ≠
      String.intercalate "\n\n"
        ((convertContentsToMessages c3CexContents).map (fun m => m.content)) := by
  decide

/-- C3 amended: for contents in which every turn is either a bare string
or has a truthy role and only truthy-text parts, the completion-style
`prompt` equals the chat-style per-turn contents joined by a blank line
between turns.  (Turns with non-text or empty-text parts diverge: the
completion translation serializes such parts to JSON inline, the chat
translation drops them.) -/
theorem C3_prompt_matches_chat_for_texty_turns (cs : List ContentInput)
    (h : cs.all goodTurn = true) :
    convertContentsToPrompt (.array cs) =
      String.intercalate "\n\n"
        ((convertContentsToMessages (.array cs)).map (fun m => m.content)) := by
  unfold convertContentsToPrompt convertContentsToMessages toContentArray
  rw [List.map_map]
  congr 1
  refine List.map_congr_left ?_
  intro c hc
  rw [List.all_eq_true] at h
  have hg : goodTurn c = true := h c hc
  cases c with
  | str s => rfl
  | turn role parts =>
    simp only [goodTurn, Bool.and_eq_true] at hg
    obtain ⟨hrole, hparts⟩ := hg
    cases parts with
    | none => simp at hparts
    | some ps =>
      simp only at hparts
      have hall : ∀ p ∈ ps, truthyText p = true := List.all_eq_true.mp hparts
      simp only [Function.comp_apply, mapTurnToPrompt, mapTurnToMessage,
        Option.isSome_some, Bool.and_true, hrole, if_true, Option.getD_some]
      have hfilter : ps.filter truthyText = ps := List.filter_eq_self.mpr hall
      rw [hfilter]
      congr 1
      refine List.map_congr_left ?_
      intro p hp
      simp [hall p hp]

theorem C3_witness :
    c3WitnessTurns.all goodTurn = true ∧
    convertContentsToPrompt (.array c3WitnessTurns) =
      String.intercalate "\n\n"
        ((convertContentsToMessages (.array c3WitnessTurns)).map
          (fun m => m.content)) :=
  ⟨by decide, C3_prompt_matches_chat_for_texty_turns c3WitnessTurns (by decide)⟩

/-- C6: the factory constructs the OpenAI-compatible adapter exactly when
all three generic-provider values (endpoint URL, API key, model) are
truthy, regardless of the auth type (precedence); with partial presence it
falls through to vendor-auth resolution (a vendor generator exactly when
an auth type is set); and it fails only when generic mode is off and no
auth type applies, with a configuration error naming the unsupported auth
type (the value `undefined`). -/
theorem C6_factory_selection (env : ProcessEnv)
    (config : ContentGeneratorConfig) :
    isOpenAIGenerator (createContentGenerator env config) =
      (jsTruthy env.llmApiUrl && jsTruthy env.llmApiKey &&
        jsTruthy env.llmModel) ∧
    isVendorGenerator (createContentGenerator env config) =
      (!(jsTruthy env.llmApiUrl && jsTruthy env.llmApiKey &&
          jsTruthy env.llmModel) && config.authType.isSome) ∧
    errOf (createContentGenerator env config) =
      (if !(jsTruthy env.llmApiUrl && jsTruthy env.llmApiKey &&
            jsTruthy env.llmModel) && config.authType.isNone
       then some "Error creating contentGenerator: Unsupported authType: undefined"
       else none) := by
  unfold createContentGenerator
  cases h : (jsTruthy env.llmApiUrl && jsTruthy env.llmApiKey &&
      jsTruthy env.llmModel) with
  | true => simp [isOpenAIGenerator, isVendorGenerator, errOf]
  | false =>
    cases hat : config.authType with
    | none =>
      simp [isOpenAIGenerator, isVendorGenerator, errOf, showAuthType]
    | some t =>
      cases t <;>
        simp [isOpenAIGenerator, isVendorGenerator, errOf, showAuthType]

/-- C9 counterexample: with a caller-supplied static `Content-Type`
header, the composed headers carry the static value, so
`Content-Type: application/json` is not always present. -/
theorem C9_counterexample_content_type_overridden :
    headerLookup "Content-Type"
        (buildRequestHeaders c9CexCfg c9CexCfg.apiUrl) = some "text/plain" ∧
    headerLookup "Content-Type"
        (buildRequestHeaders c9CexCfg c9CexCfg.apiUrl) ≠
      some "application/json" := by
  exact ⟨by decide, by decide⟩

/-- C9 amended: with a truthy API key the static headers are applied
first and the key-derived auth header afterwards, so the derived value
wins any collision on the auth-header key; `Content-Type` is
`application/json` unless a caller-supplied static header rebinds it, in
which case the last static binding wins. -/
theorem C9_header_precedence_amended (cfg : LLMProviderConfig)
    (url : String) (h : jsTruthy cfg.apiKey = true) :
    headerLookup (authHeaderFor url (cfg.apiKey.getD "")).1
        (buildRequestHeaders cfg url) =
      some (authHeaderFor url (cfg.apiKey.getD "")).2 ∧
    headerLookup "Content-Type" (buildRequestHeaders cfg url) =
      some ((lastBinding "Content-Type" (cfg.headers.getD [])).getD
        "application/json") := by
  unfold buildRequestHeaders
  simp only [h, if_true]
  constructor
  · exact headerLookup_upsert_self _ _ _
  · rw [headerLookup_upsert_other _ _ _ _
      (Ne.symm (authKey_ne_contentType url (cfg.apiKey.getD "")))]
    rw [headerLookup_applyHeaders]
    cases hlb : lastBinding "Content-Type" (cfg.headers.getD []) with
    | some v => rfl
    | none => rfl

theorem C9_witness :
    jsTruthy c9WitnessCfg.apiKey = true ∧
    (headerLookup
        (authHeaderFor c9WitnessCfg.apiUrl (c9WitnessCfg.apiKey.getD "")).1
        (buildRequestHeaders c9WitnessCfg c9WitnessCfg.apiUrl) =
      some (authHeaderFor c9WitnessCfg.apiUrl
        (c9WitnessCfg.apiKey.getD "")).2 ∧
    headerLookup "Content-Type"
        (buildRequestHeaders c9WitnessCfg c9WitnessCfg.apiUrl) =
      some ((lastBinding "Content-Type" (c9WitnessCfg.headers.getD [])).getD
        "application/json")) :=
  ⟨by decide,
    C9_header_precedence_amended c9WitnessCfg c9WitnessCfg.apiUrl (by decide)⟩

/-- C10: whenever the extracted text is the empty string (present but
falsy), the structured response is exactly the function-calls JSON — with
no leading newline when calls are present, and absent (not the empty
string) when none are — for both the response-level and the parts-level
variants. -/
theorem C10_empty_text_treated_absent (r : GenerateContentResponse)
    (parts : List Part) (h1 : getResponseText r = some "")
    (h2 : getResponseTextFromParts parts = some "") :
    getStructuredResponse r = getFunctionCallsAsJson r ∧
    getStructuredResponseFromParts parts =
      getFunctionCallsFromPartsAsJson parts := by
  have hz : jsTruthy (some "") = false := rfl
  constructor
  · unfold getStructuredResponse
    rw [h1]
    cases hf : getFunctionCalls r with
    | none => simp [getFunctionCallsAsJson, hf, hz]
    | some fcs =>
      have ht := stringifyPretty_truthy fcs (getFunctionCalls_ne_nil r fcs hf)
      simp [getFunctionCallsAsJson, hf, hz, ht]
  · unfold getStructuredResponseFromParts
    rw [h2]
    cases hf : getFunctionCallsFromParts parts with
    | none => simp [getFunctionCallsFromPartsAsJson, hf, hz]
    | some fcs =>
      have ht := stringifyPretty_truthy fcs
        (getFunctionCallsFromParts_ne_nil parts fcs hf)
      simp [getFunctionCallsFromPartsAsJson, hf, hz, ht]

theorem C10_witness :
    getResponseText c10Response = some "" ∧
    getResponseTextFromParts c10Parts = some "" ∧
    (getStructuredResponse c10Response = getFunctionCallsAsJson c10Response ∧
     getStructuredResponseFromParts c10Parts =
       getFunctionCallsFromPartsAsJson c10Parts) :=
  ⟨rfl, rfl, C10_empty_text_treated_absent c10Response c10Parts rfl rfl⟩

end GeminiAnyLLM
